import Mathlib

/-!
Verification development for the passkey-readiness demo server.

The definitions below are a shallow embedding of the ceremony core:

* `src/packages/web/src/lib/api.ts` — `canonicalizeCredentialId`,
  `WebAuthnController.startRegistration` / `startAuthentication` /
  `finishAuthentication`, `OTPController.verifyRegistrationOTP` /
  `verifyAuthenticationOTP`;
* the Mongo-backed models (`ChallengeModel`, `CredentialModel`, `UserModel`,
  `SecurityEventModel`) from the server sources.

Modelling conventions:

* MongoDB collections are lists of documents; `findOne` is the first match,
  `updateOne` updates the first match and its `modifiedCount > 0` result is
  `true` exactly when the matched document actually changed (a `$set` writing
  the value already present modifies nothing, while any `$inc` always does).
* `Date` values are natural numbers (milliseconds).
* Strings are sequences of Unicode scalar values; the JavaScript `.length`
  (UTF-16 units) agrees with this on all inputs without astral-plane
  characters, which covers every identifier the ceremony handles.
* Node's `Buffer.from(s, 'base64url')` never throws: it skips characters
  outside the (combined standard/url-safe) base64 alphabet, stops at the
  first `'='`, and decodes the remaining sextet stream, dropping a trailing
  lone sextet.  `buf.toString('utf8')` is the lossy WHATWG decode with
  U+FFFD replacement (byte counts consumed on malformed sequences can differ
  from V8's maximal-subpart rule, but only in how many replacement
  characters appear, which no guarded condition in the source observes).
-/

/-- One 6-bit value per char of Node's forgiving base64 table: both the
standard and the url-safe alphabet are accepted (`src/lib/api.ts` decodes
with `Buffer.from(current, 'base64url')`). -/
def b64CharVal (c : Char) : Option Nat :=
  if 65 ≤ c.toNat ∧ c.toNat ≤ 90 then some (c.toNat - 65)
  else if 97 ≤ c.toNat ∧ c.toNat ≤ 122 then some (c.toNat - 97 + 26)
  else if 48 ≤ c.toNat ∧ c.toNat ≤ 57 then some (c.toNat - 48 + 52)
  else if c.toNat = 43 ∨ c.toNat = 45 then some 62
  else if c.toNat = 47 ∨ c.toNat = 95 then some 63
  else none

/-- Node's base64 scanner: invalid characters are skipped, a `'='`
terminates the decode. Produces the sextet stream. -/
def b64Filter : List Char → List Nat
  | [] => []
  | c :: cs =>
    if c = '=' then []
    else
      match b64CharVal c with
      | some v => v :: b64Filter cs
      | none => b64Filter cs

/-- Sextets to bytes, as Node's slow-path base64 decoder emits them: full
groups of four sextets give three bytes, a trailing pair gives one byte, a
trailing triple gives two, a lone trailing sextet is dropped. -/
def b64Groups : List Nat → List Nat
  | v0 :: v1 :: v2 :: v3 :: rest =>
    (v0 * 4 + v1 / 16) :: (v1 % 16 * 16 + v2 / 4) :: (v2 % 4 * 64 + v3) :: b64Groups rest
  | [v0, v1, v2] => [v0 * 4 + v1 / 16, v1 % 16 * 16 + v2 / 4]
  | [v0, v1] => [v0 * 4 + v1 / 16]
  | _ => []

/-- `Buffer.from(s, 'base64url')` — total, never throws. -/
def b64urlDecode (s : String) : List Nat :=
  b64Groups (b64Filter s.data)

/-- The url-safe encoding alphabet. -/
def b64EncChar (v : Nat) : Char :=
  Char.ofNat <|
    if v < 26 then 65 + v
    else if v < 52 then 97 + (v - 26)
    else if v < 62 then 48 + (v - 52)
    else if v = 62 then 45
    else 95

/-- Bytes to sextets (unpadded). -/
def b64Sextets : List Nat → List Nat
  | x :: y :: z :: rest =>
    (x / 4) :: (x % 4 * 16 + y / 16) :: (y % 16 * 4 + z / 64) :: (z % 64) :: b64Sextets rest
  | [x, y] => [x / 4, x % 4 * 16 + y / 16, y % 16 * 4]
  | [x] => [x / 4, x % 4 * 16]
  | [] => []

/-- `isoBase64URL.fromBuffer` — canonical unpadded url-safe base64 of raw
bytes (never throws). -/
def fromBuffer (b : List Nat) : String :=
  ⟨(b64Sextets b).map b64EncChar⟩

/-- The character class of the guard regex in `canonicalizeCredentialId`
(`A-Z`, `a-z`, `0-9`, `-`, `_`). -/
def isB64UrlChar (c : Char) : Bool :=
  (65 ≤ c.toNat && c.toNat ≤ 90) || (97 ≤ c.toNat && c.toNat ≤ 122) ||
    (48 ≤ c.toNat && c.toNat ≤ 57) || c.toNat == 45 || c.toNat == 95

/-- The test of the regex `^[A-Za-z0-9_-]+$` on a whole string. -/
def b64AlphaString (s : String) : Bool :=
  !s.data.isEmpty && s.data.all isB64UrlChar

/-- The replacement character U+FFFD. -/
def replChar : Char := Char.ofNat 0xFFFD

/-- Decode one well-formed multi-byte UTF-8 sequence starting at lead byte
`b`, returning the code point and the remaining bytes, or `none` when the
sequence is malformed.  The code-point range conditions (`0x800 ≤ cp`, the
surrogate gap, `0x10000 ≤ cp ≤ 0x10FFFF`) are exactly the WHATWG
second-byte special bounds for lead bytes `E0`/`ED`/`F0`/`F4`, written
arithmetically. -/
def utf8DecodeSeq (b : Nat) (rest : List Nat) : Option (Nat × List Nat) :=
  if 0xC2 ≤ b ∧ b < 0xE0 then
    match rest with
    | b2 :: r2 =>
      if 0x80 ≤ b2 ∧ b2 < 0xC0 then some ((b - 0xC0) * 64 + (b2 - 0x80), r2) else none
    | _ => none
  else if 0xE0 ≤ b ∧ b < 0xF0 then
    match rest with
    | b2 :: b3 :: r3 =>
      if 0x80 ≤ b2 ∧ b2 < 0xC0 ∧ 0x80 ≤ b3 ∧ b3 < 0xC0 ∧
          0x800 ≤ (b - 0xE0) * 4096 + (b2 - 0x80) * 64 + (b3 - 0x80) ∧
          ¬(0xD800 ≤ (b - 0xE0) * 4096 + (b2 - 0x80) * 64 + (b3 - 0x80) ∧
            (b - 0xE0) * 4096 + (b2 - 0x80) * 64 + (b3 - 0x80) ≤ 0xDFFF) then
        some ((b - 0xE0) * 4096 + (b2 - 0x80) * 64 + (b3 - 0x80), r3)
      else none
    | _ => none
  else if 0xF0 ≤ b ∧ b < 0xF5 then
    match rest with
    | b2 :: b3 :: b4 :: r4 =>
      if 0x80 ≤ b2 ∧ b2 < 0xC0 ∧ 0x80 ≤ b3 ∧ b3 < 0xC0 ∧ 0x80 ≤ b4 ∧ b4 < 0xC0 ∧
          0x10000 ≤ (b - 0xF0) * 262144 + (b2 - 0x80) * 4096 + (b3 - 0x80) * 64 + (b4 - 0x80) ∧
          (b - 0xF0) * 262144 + (b2 - 0x80) * 4096 + (b3 - 0x80) * 64 + (b4 - 0x80) ≤ 0x10FFFF then
        some ((b - 0xF0) * 262144 + (b2 - 0x80) * 4096 + (b3 - 0x80) * 64 + (b4 - 0x80), r4)
      else none
    | _ => none
  else none

/-- One step of the lossy UTF-8 decode: an ASCII byte decodes to itself, a
well-formed multi-byte sequence to its code point, and anything malformed
to U+FFFD (consuming the lead byte). -/
def utf8Step (b : Nat) (rest : List Nat) : Char × List Nat :=
  if b < 0x80 then (Char.ofNat b, rest)
  else
    match utf8DecodeSeq b rest with
    | some (cp, r) => (Char.ofNat cp, r)
    | none => (replChar, rest)

/-- Fuelled driver for the lossy decode (each step consumes at least the
lead byte, so `bs.length` fuel always suffices). -/
def utf8LossyAux : Nat → List Nat → List Char
  | 0, _ => []
  | _ + 1, [] => []
  | f + 1, b :: rest =>
    let s := utf8Step b rest
    s.1 :: utf8LossyAux f s.2

/-- `buf.toString('utf8')` — total lossy decode. -/
def utf8Lossy (bs : List Nat) : List Char :=
  utf8LossyAux bs.length bs

/-- Result shape of `canonicalizeCredentialId`. -/
structure CanonResult where
  canonical : String
  transformations : List String
deriving DecidableEq, Repr

/-- `canonicalizeCredentialId` (`src/packages/web/src/lib/api.ts` 595-622),
with the two iterations of the `for (let i = 0; i < 2; i++)` loop unrolled.
The `try`/`catch` of the source is omitted because every operation in the
body (`Buffer.from(·, 'base64url')`, `toString('utf8')`,
`isoBase64URL.fromBuffer`) is total on string/buffer inputs, so the catch
branch is unreachable. -/
def canonicalizeCredentialId (id : String) : CanonResult :=
  let buf1 := b64urlDecode id
  let ascii1 : String := ⟨utf8Lossy buf1⟩
  if b64AlphaString ascii1 ∧ ascii1.length < id.length then
    let buf2 := b64urlDecode ascii1
    let ascii2 : String := ⟨utf8Lossy buf2⟩
    if b64AlphaString ascii2 ∧ ascii2.length < ascii1.length then
      ⟨ascii2, ["unwrap-layer-1", "unwrap-layer-2"]⟩
    else
      let canonical := fromBuffer buf2
      ⟨canonical, if canonical = ascii1 then ["unwrap-layer-1"]
                  else ["unwrap-layer-1", "re-encode-raw"]⟩
  else
    let canonical := fromBuffer buf1
    ⟨canonical, if canonical = id then [] else ["re-encode-raw"]⟩

/-! ### Arithmetic facts about the base64url codec -/

theorem b64CharVal_lt64 {c : Char} {v : Nat} (h : b64CharVal c = some v) : v < 64 := by
  simp only [b64CharVal] at h
  repeat' split at h
  all_goals first
    | (injection h with h; omega)
    | exact absurd h (by simp)

theorem b64Filter_lt64 : ∀ cs : List Char, ∀ v ∈ b64Filter cs, v < 64
  | [] => by simp [b64Filter]
  | c :: cs => by
    intro v hv
    by_cases he : c = '='
    · simp [b64Filter, he] at hv
    · rcases hw : b64CharVal c with _ | w
      · rw [b64Filter, if_neg he, hw] at hv
        exact b64Filter_lt64 cs v hv
      · rw [b64Filter, if_neg he, hw] at hv
        rcases List.mem_cons.mp hv with h | h
        · exact h ▸ b64CharVal_lt64 hw
        · exact b64Filter_lt64 cs v h

theorem b64Groups_lt256 : ∀ l : List Nat, (∀ v ∈ l, v < 64) → ∀ x ∈ b64Groups l, x < 256
  | v0 :: v1 :: v2 :: v3 :: rest, h => by
    have h0 := h v0 (by simp); have h1 := h v1 (by simp)
    have h2 := h v2 (by simp); have h3 := h v3 (by simp)
    have ih := b64Groups_lt256 rest (fun v hv => h v (by simp [hv]))
    intro x hx
    rcases List.mem_cons.mp hx with h' | hx
    · omega
    rcases List.mem_cons.mp hx with h' | hx
    · omega
    rcases List.mem_cons.mp hx with h' | hx
    · omega
    exact ih x hx
  | [v0, v1, v2], h => by
    have h0 := h v0 (by simp); have h1 := h v1 (by simp); have h2 := h v2 (by simp)
    intro x hx
    rcases List.mem_cons.mp hx with h' | hx
    · omega
    · simp [b64Groups] at hx; omega
  | [v0, v1], h => by
    have h0 := h v0 (by simp); have h1 := h v1 (by simp)
    intro x hx
    simp [b64Groups] at hx; omega
  | [v0], _ => by intro x hx; simp [b64Groups] at hx
  | [], _ => by intro x hx; simp [b64Groups] at hx

theorem b64urlDecode_lt256 (s : String) : ∀ x ∈ b64urlDecode s, x < 256 :=
  b64Groups_lt256 _ (b64Filter_lt64 s.data)

theorem b64Filter_length_le : ∀ cs : List Char, (b64Filter cs).length ≤ cs.length
  | [] => by simp [b64Filter]
  | c :: cs => by
    have ih := b64Filter_length_le cs
    by_cases he : c = '='
    · simp [b64Filter, he]
    · rcases hw : b64CharVal c with _ | w <;>
        simp [b64Filter, he, hw] <;> omega

theorem b64Groups_length_le : ∀ l : List Nat, (b64Groups l).length ≤ l.length
  | v0 :: v1 :: v2 :: v3 :: rest => by
    have ih := b64Groups_length_le rest
    simp [b64Groups]; omega
  | [v0, v1, v2] => by simp [b64Groups]
  | [v0, v1] => by simp [b64Groups]
  | [v0] => by simp [b64Groups]
  | [] => by simp [b64Groups]

theorem b64Groups_length_lt : ∀ l : List Nat, b64Groups l ≠ [] → (b64Groups l).length < l.length
  | v0 :: v1 :: v2 :: v3 :: rest, _ => by
    have ih := b64Groups_length_le rest
    simp [b64Groups]; omega
  | [v0, v1, v2], _ => by simp [b64Groups]
  | [v0, v1], _ => by simp [b64Groups]
  | [v0], h => by simp [b64Groups] at h
  | [], h => by simp [b64Groups] at h

theorem b64urlDecode_length_lt (s : String) (h : b64urlDecode s ≠ []) :
    (b64urlDecode s).length < s.length := by
  unfold b64urlDecode at *
  calc (b64Groups (b64Filter s.data)).length < (b64Filter s.data).length :=
        b64Groups_length_lt _ h
    _ ≤ s.data.length := b64Filter_length_le s.data

theorem b64Sextets_lt64 : ∀ b : List Nat, (∀ x ∈ b, x < 256) → ∀ v ∈ b64Sextets b, v < 64
  | x :: y :: z :: rest, h => by
    have hx := h x (by simp); have hy := h y (by simp); have hz := h z (by simp)
    have ih := b64Sextets_lt64 rest (fun a ha => h a (by simp [ha]))
    intro v hv
    rcases List.mem_cons.mp hv with h' | hv
    · omega
    rcases List.mem_cons.mp hv with h' | hv
    · omega
    rcases List.mem_cons.mp hv with h' | hv
    · omega
    rcases List.mem_cons.mp hv with h' | hv
    · omega
    exact ih v hv
  | [x, y], h => by
    have hx := h x (by simp); have hy := h y (by simp)
    intro v hv; simp [b64Sextets] at hv; omega
  | [x], h => by
    have hx := h x (by simp)
    intro v hv; simp [b64Sextets] at hv; omega
  | [], _ => by intro v hv; simp [b64Sextets] at hv

theorem b64_enc_roundtrip : ∀ v : Nat, v < 64 → b64CharVal (b64EncChar v) = some v := by decide

theorem b64EncChar_ne_pad : ∀ v : Nat, v < 64 → b64EncChar v ≠ '=' := by decide

theorem b64Filter_map_enc : ∀ vs : List Nat, (∀ v ∈ vs, v < 64) →
    b64Filter (vs.map b64EncChar) = vs
  | [], _ => rfl
  | v :: vs, h => by
    have hv : v < 64 := h v (by simp)
    have ih := b64Filter_map_enc vs (fun x hx => h x (by simp [hx]))
    simp [b64Filter, b64EncChar_ne_pad v hv, b64_enc_roundtrip v hv, ih]

theorem b64Groups_sextets : ∀ b : List Nat, (∀ x ∈ b, x < 256) →
    b64Groups (b64Sextets b) = b
  | [], _ => rfl
  | [x], h => by
    have hx := h x (by simp)
    simp [b64Sextets, b64Groups]; omega
  | [x, y], h => by
    have hx := h x (by simp); have hy := h y (by simp)
    simp [b64Sextets, b64Groups]
    constructor <;> omega
  | x :: y :: z :: rest, h => by
    have hx := h x (by simp); have hy := h y (by simp); have hz := h z (by simp)
    have ih := b64Groups_sextets rest (fun a ha => h a (by simp [ha]))
    simp [b64Sextets, b64Groups, ih]
    refine ⟨by omega, by omega, by omega⟩

theorem b64urlDecode_fromBuffer (b : List Nat) (h : ∀ x ∈ b, x < 256) :
    b64urlDecode (fromBuffer b) = b := by
  show b64Groups (b64Filter ((b64Sextets b).map b64EncChar)) = b
  rw [b64Filter_map_enc _ (b64Sextets_lt64 b h), b64Groups_sextets b h]

/-! ### The lossy UTF-8 decode and the guard regex -/

theorem char_toNat_ofNat {n : Nat} (h : n.isValidChar) : (Char.ofNat n).toNat = n := by
  rw [Char.ofNat, dif_pos h]
  rfl

theorem isB64UrlChar_ofNat_ge128 {n : Nat} (h : 128 ≤ n) :
    isB64UrlChar (Char.ofNat n) = false := by
  by_cases hv : n.isValidChar
  · simp only [isB64UrlChar, char_toNat_ofNat hv, Bool.or_eq_false_iff, Bool.and_eq_false_iff,
      decide_eq_false_iff_not, beq_eq_false_iff_ne, ne_eq, not_le]
    omega
  · rw [Char.ofNat, dif_neg hv]
    decide

theorem utf8DecodeSeq_ge128 {b : Nat} {rest : List Nat} {cp : Nat} {r : List Nat}
    (h : utf8DecodeSeq b rest = some (cp, r)) : 128 ≤ cp := by
  unfold utf8DecodeSeq at h
  repeat' split at h
  all_goals first
    | exact Option.noConfusion h
    | (injection h with h
       injection h with h h'
       omega)

theorem utf8Step_ascii {b : Nat} (rest : List Nat) (h : b < 128) :
    utf8Step b rest = (Char.ofNat b, rest) := by
  unfold utf8Step
  rw [if_pos h]

theorem utf8Step_not_alpha {b : Nat} (rest : List Nat) (h : 128 ≤ b) :
    isB64UrlChar (utf8Step b rest).1 = false := by
  unfold utf8Step
  rw [if_neg (by omega)]
  rcases hd : utf8DecodeSeq b rest with _ | ⟨cp, r⟩
  · simp only []
    decide
  · simp only []
    exact isB64UrlChar_ofNat_ge128 (utf8DecodeSeq_ge128 hd)

theorem utf8LossyAux_alpha : ∀ (f : Nat) (bs : List Nat), bs.length ≤ f →
    (∀ c ∈ utf8LossyAux f bs, isB64UrlChar c = true) →
    utf8LossyAux f bs = bs.map Char.ofNat ∧ ∀ x ∈ bs, x < 128
  | 0, bs, hlen, _ => by
    have hb : bs = [] := List.length_eq_zero.mp (Nat.le_zero.mp hlen)
    subst hb
    simp [utf8LossyAux]
  | _ + 1, [], _, _ => by simp [utf8LossyAux]
  | f + 1, b :: rest, hlen, halpha => by
    by_cases hb : b < 128
    · have hrec : utf8LossyAux (f + 1) (b :: rest) = Char.ofNat b :: utf8LossyAux f rest := by
        simp [utf8LossyAux, utf8Step_ascii rest hb]
      have hlen' : rest.length ≤ f := by
        simp only [List.length_cons] at hlen
        omega
      have halpha' : ∀ c ∈ utf8LossyAux f rest, isB64UrlChar c = true := fun c hc =>
        halpha c (by rw [hrec]; exact List.mem_cons_of_mem _ hc)
      obtain ⟨ih1, ih2⟩ := utf8LossyAux_alpha f rest hlen' halpha'
      refine ⟨by rw [hrec, ih1]; rfl, ?_⟩
      intro x hx
      rcases List.mem_cons.mp hx with h' | h'
      · omega
      · exact ih2 x h'
    · exfalso
      have hmem : (utf8Step b rest).1 ∈ utf8LossyAux (f + 1) (b :: rest) := by
        simp [utf8LossyAux]
      have halm := halpha _ hmem
      rw [utf8Step_not_alpha rest (by omega)] at halm
      exact Bool.false_ne_true halm

theorem utf8Lossy_alpha {bs : List Nat}
    (h : ∀ c ∈ utf8Lossy bs, isB64UrlChar c = true) :
    utf8Lossy bs = bs.map Char.ofNat ∧ ∀ x ∈ bs, x < 128 :=
  utf8LossyAux_alpha bs.length bs (Nat.le_refl _) h

theorem b64AlphaString_utf8 {bs : List Nat}
    (h : b64AlphaString ⟨utf8Lossy bs⟩ = true) :
    utf8Lossy bs = bs.map Char.ofNat ∧ bs ≠ [] ∧ ∀ x ∈ bs, x < 128 := by
  have hdata : (String.mk (utf8Lossy bs)).data = utf8Lossy bs := rfl
  unfold b64AlphaString at h
  rw [hdata, Bool.and_eq_true, List.all_eq_true] at h
  obtain ⟨hne, hall⟩ := h
  obtain ⟨h1, h2⟩ := utf8Lossy_alpha hall
  refine ⟨h1, ?_, h2⟩
  intro hbs
  subst hbs
  simp [utf8Lossy, utf8LossyAux] at hne

theorem string_mk_length (l : List Char) : (String.mk l).length = l.length := rfl

/-! ### Structure of `canonicalizeCredentialId` -/

/-- When the decoded bytes pass the guard regex, the decoded string is
automatically shorter than the input: decoding drops at least a quarter of
the characters. -/
theorem alpha_ascii_shorter {cur : String}
    (h : b64AlphaString ⟨utf8Lossy (b64urlDecode cur)⟩ = true) :
    (String.mk (utf8Lossy (b64urlDecode cur))).length < cur.length := by
  obtain ⟨hmap, hne, _⟩ := b64AlphaString_utf8 h
  rw [string_mk_length, hmap, List.length_map]
  exact b64urlDecode_length_lt cur hne

/-- Every run of `canonicalizeCredentialId` either ends by re-encoding a
byte list whose lossy decode fails the guard regex, or performs two unwrap
layers and returns the raw unwrapped string. -/
theorem canonicalizeCredentialId_shape (s : String) :
    (∃ bs, (∀ x ∈ bs, x < 256) ∧ b64AlphaString ⟨utf8Lossy bs⟩ = false ∧
      (canonicalizeCredentialId s).canonical = fromBuffer bs) ∨
    (canonicalizeCredentialId s).transformations = ["unwrap-layer-1", "unwrap-layer-2"] := by
  simp only [canonicalizeCredentialId]
  split
  · rename_i h1
    split
    · right
      rfl
    · rename_i h2
      left
      refine ⟨b64urlDecode ⟨utf8Lossy (b64urlDecode s)⟩, b64urlDecode_lt256 _, ?_, rfl⟩
      by_contra hcon
      rw [Bool.not_eq_false] at hcon
      exact h2 ⟨hcon, alpha_ascii_shorter hcon⟩
  · rename_i h1
    left
    refine ⟨b64urlDecode s, b64urlDecode_lt256 s, ?_, rfl⟩
    by_contra hcon
    rw [Bool.not_eq_false] at hcon
    exact h1 ⟨hcon, alpha_ascii_shorter hcon⟩

/-- Re-encoded byte lists that fail the guard regex are fixed points of
canonicalization. -/
theorem canonicalizeCredentialId_fromBuffer_fixed (bs : List Nat)
    (h256 : ∀ x ∈ bs, x < 256)
    (hna : b64AlphaString ⟨utf8Lossy bs⟩ = false) :
    canonicalizeCredentialId (fromBuffer bs) = ⟨fromBuffer bs, []⟩ := by
  simp only [canonicalizeCredentialId]
  rw [b64urlDecode_fromBuffer bs h256]
  rw [if_neg (by rw [hna]; simp)]
  simp

/-- C3 (counterexample): canonicalization is not idempotent.  The
triple-encoded identifier "VVZWRg" unwraps twice to "QUE" and is returned
without re-encoding; a second canonicalization of "QUE" unwraps further to
"AA". -/
theorem canonicalizeCredentialId_not_idempotent :
    (canonicalizeCredentialId (canonicalizeCredentialId "VVZWRg").canonical).canonical ≠
      (canonicalizeCredentialId "VVZWRg").canonical := by decide

/-- C3 (amended): canonicalization is idempotent on every identifier whose
canonicalization does not perform the second unwrap layer, i.e. whenever
"unwrap-layer-2" is not among the recorded transformation steps the
canonical form is a fixed point of `canonicalizeCredentialId`. -/
theorem canonicalizeCredentialId_idem_of_no_double_unwrap (s : String)
    (h : "unwrap-layer-2" ∉ (canonicalizeCredentialId s).transformations) :
    (canonicalizeCredentialId (canonicalizeCredentialId s).canonical).canonical =
      (canonicalizeCredentialId s).canonical := by
  rcases canonicalizeCredentialId_shape s with ⟨bs, h256, hna, heq⟩ | hdbl
  · rw [heq, canonicalizeCredentialId_fromBuffer_fixed bs h256 hna]
  · rw [hdbl] at h
    simp at h

/-- Witness for the amended C3 theorem at the doubly-encoded identifier
"QUJD" (one unwrap plus a re-encode, no second unwrap). -/
theorem canonicalizeCredentialId_idem_witness :
    "unwrap-layer-2" ∉ (canonicalizeCredentialId "QUJD").transformations ∧
      (canonicalizeCredentialId (canonicalizeCredentialId "QUJD").canonical).canonical =
        (canonicalizeCredentialId "QUJD").canonical :=
  ⟨by decide, canonicalizeCredentialId_idem_of_no_double_unwrap "QUJD" (by decide)⟩

/-- Marker for the catch branch of the source `canonicalizeCredentialId`
(which records a step starting with "canonicalization-error:"). -/
def isCanonErrorStep (s : String) : Bool :=
  s.data.take 22 == "canonicalization-error".data

/-- C10: `canonicalizeCredentialId` is total and never throws.  Every run
returns the current string together with one of the five possible
transformation traces of the two-iteration loop, and no
"canonicalization-error" step is ever recorded: the decode and re-encode
primitives used by the body are total, so the catch branch of the source is
unreachable. -/
theorem canonicalizeCredentialId_total (id : String) :
    (canonicalizeCredentialId id).transformations ∈
      ([[], ["re-encode-raw"], ["unwrap-layer-1"], ["unwrap-layer-1", "re-encode-raw"],
        ["unwrap-layer-1", "unwrap-layer-2"]] : List (List String)) ∧
    (∀ step ∈ (canonicalizeCredentialId id).transformations, isCanonErrorStep step = false) ∧
    ((canonicalizeCredentialId id).transformations = [] →
      (canonicalizeCredentialId id).canonical = id) := by
  simp only [canonicalizeCredentialId]
  repeat' split
  all_goals refine ⟨by simp, ?_, ?_⟩
  all_goals first
    | (rename_i heq; exact fun _ => heq)
    | (intro step hstep
       simp at hstep
       rcases hstep with rfl | rfl <;> decide)
    | (intro step hstep
       simp at hstep
       subst hstep
       decide)
    | (intro step hstep
       simp at hstep)
    | simp

/-! ### Data model (`src/packages/server/src/db/index.ts`) -/

/-- `User` document (lifecycle counters included). -/
structure User where
  id : String
  username : String
  email : Option String
  displayName : String
  createdAt : Nat
  lastLoginAt : Option Nat
  isActive : Bool
  passkeyRegistrations : Nat
  otpFallbackUsage : Nat
  successfulAuthentications : Nat
  failedAuthentications : Nat
deriving DecidableEq, Repr

/-- `Credential` document.  `publicKey` carries the opaque key bytes. -/
structure Credential where
  id : String
  userId : String
  publicKey : List Nat
  counter : Nat
  deviceType : Option String
  transports : List String
  createdAt : Nat
  lastUsedAt : Option Nat
  useCount : Nat
deriving DecidableEq, Repr

/-- `Challenge` document.  `userId` is `""` for ownerless (discoverable)
challenges, exactly as `createChallenge` stores `userId || ''`. -/
structure Challenge where
  id : String
  userId : String
  challenge : String
  type : String
  createdAt : Nat
  expiresAt : Nat
  used : Bool
deriving DecidableEq, Repr

/-- `SecurityEvent` document (request metadata `ipAddress`/`userAgent` is
not modelled; `logEvent` stores `''` defaults for absent fields). -/
structure SecurityEvent where
  id : String
  userId : String
  eventType : String
  eventData : String
  timestamp : Nat
  severity : String
deriving DecidableEq, Repr

/-- `AppError(message, statusCode)` from the error middleware. -/
structure AppError where
  message : String
  statusCode : Nat
deriving DecidableEq, Repr

/-! ### ChallengeModel (`src/unnamed/part_007`) -/

/-- `ChallengeModel.createChallenge` with the default 5-minute expiry;
`nanoid()` and `new Date()` are passed in as `freshId` / `now`. -/
def createChallenge (cs : List Challenge) (freshId challengeValue ty : String)
    (userId : Option String) (now : Nat) : Challenge × List Challenge :=
  let c : Challenge :=
    { id := freshId, userId := userId.getD "", challenge := challengeValue, type := ty,
      createdAt := now, expiresAt := now + 5 * 60 * 1000, used := false }
  (c, cs ++ [c])

/-- The filter of `ChallengeModel.findValidChallenge`: the Mongo query
`type, used: false, expiresAt > now` plus the owner condition, which is
added only when the `userId` argument is truthy (absent or `""` means no
owner filter — the JavaScript `if (userId)` guard). -/
def challengeEligible (now : Nat) (ty : String) (owner : Option String) (c : Challenge) : Bool :=
  c.type == ty && c.used == false && decide (now < c.expiresAt) &&
    (match owner with
     | none => true
     | some u => if u = "" then true else c.userId == u)

/-- Keep the more recently created of the current candidate and a
previously found one (ties keep the earlier-inserted document). -/
def pickNewer (c : Challenge) : Option Challenge → Challenge
  | some b => if b.createdAt > c.createdAt then b else c
  | none => c

/-- `ChallengeModel.findValidChallenge`: `findOne` under the eligibility
query with `sort createdAt: -1` — the eligible challenge with the largest
`createdAt` (the earliest-inserted one on ties). -/
def findValidChallenge : List Challenge → Nat → String → Option String → Option Challenge
  | [], _, _, _ => none
  | c :: rest, now, ty, owner =>
    let r := findValidChallenge rest now ty owner
    if challengeEligible now ty owner c then some (pickNewer c r)
    else r

/-- `ChallengeModel.markChallengeAsUsed`: `updateOne(\x7b id \x7d, $set used: true)`
returning `modifiedCount > 0`.  Updates the first document with this id;
the result is `true` exactly when that document was previously unused
(Mongo reports `modifiedCount 0` when `$set` writes the stored value). -/
def markChallengeAsUsed : List Challenge → String → Bool × List Challenge
  | [], _ => (false, [])
  | c :: rest, cid =>
    if c.id = cid then (!c.used, { c with used := true } :: rest)
    else
      let r := markChallengeAsUsed rest cid
      (r.1, c :: r.2)

theorem markChallengeAsUsed_first (pre post : List Challenge) (ch : Challenge) (cid : String)
    (hpre : ∀ x ∈ pre, x.id ≠ cid) (hch : ch.id = cid) :
    markChallengeAsUsed (pre ++ ch :: post) cid =
      (!ch.used, pre ++ { ch with used := true } :: post) := by
  induction pre with
  | nil => simp [markChallengeAsUsed, hch]
  | cons p pre ih =>
    have hp : p.id ≠ cid := hpre p (by simp)
    have ih' := ih fun x hx => hpre x (by simp [hx])
    simp [markChallengeAsUsed, hp, ih']

/-- C1: for a stored challenge, `consume` (`markChallengeAsUsed`) marks the
challenge used and returns `true` exactly when this call performed the
unused-to-used transition; a second consume of the same id returns `false`
and leaves the store unchanged, so two consumes of an initially unused
challenge yield exactly one `true` and one `false` outcome. -/
theorem markChallengeAsUsed_single_transition (pre post : List Challenge) (ch : Challenge)
    (cid : String) (hpre : ∀ x ∈ pre, x.id ≠ cid) (hch : ch.id = cid) :
    (markChallengeAsUsed (pre ++ ch :: post) cid).1 = !ch.used ∧
    (markChallengeAsUsed (pre ++ ch :: post) cid).2 =
      pre ++ { ch with used := true } :: post ∧
    (markChallengeAsUsed ((markChallengeAsUsed (pre ++ ch :: post) cid).2) cid).1 = false ∧
    (markChallengeAsUsed ((markChallengeAsUsed (pre ++ ch :: post) cid).2) cid).2 =
      (markChallengeAsUsed (pre ++ ch :: post) cid).2 := by
  have h1 := markChallengeAsUsed_first pre post ch cid hpre hch
  have h2 := markChallengeAsUsed_first pre post { ch with used := true } cid hpre hch
  rw [h1]
  simp only [h2]
  simp

/-- Witness for C1: a fresh unused challenge is consumed once with `true`,
then again with `false`. -/
theorem markChallengeAsUsed_single_transition_witness :
    (markChallengeAsUsed [⟨"ch1", "u1", "val", "authentication", 1, 1000, false⟩] "ch1").1
        = true ∧
    (markChallengeAsUsed
        ((markChallengeAsUsed [⟨"ch1", "u1", "val", "authentication", 1, 1000, false⟩]
          "ch1").2) "ch1").1 = false := by
  have h := markChallengeAsUsed_single_transition []
    [] ⟨"ch1", "u1", "val", "authentication", 1, 1000, false⟩ "ch1" (by simp) rfl
  exact ⟨by simpa using h.1, by simpa using h.2.2.1⟩

theorem findValidChallenge_none : ∀ (cs : List Challenge) (now : Nat) (ty : String)
    (owner : Option String), findValidChallenge cs now ty owner = none →
    ∀ x ∈ cs, challengeEligible now ty owner x = false
  | [], _, _, _ => by simp
  | b :: rest, now, ty, owner => by
    intro h x hx
    simp only [findValidChallenge] at h
    by_cases hb : challengeEligible now ty owner b = true
    · rw [if_pos hb] at h
      exact Option.noConfusion h
    · rw [if_neg hb] at h
      rcases List.mem_cons.mp hx with rfl | hx
      · exact Bool.eq_false_iff.mpr hb
      · exact findValidChallenge_none rest now ty owner h x hx

theorem findValidChallenge_spec : ∀ (cs : List Challenge) (now : Nat) (ty : String)
    (owner : Option String) (c : Challenge), findValidChallenge cs now ty owner = some c →
    c ∈ cs ∧ challengeEligible now ty owner c = true ∧
      ∀ x ∈ cs, challengeEligible now ty owner x = true → x.createdAt ≤ c.createdAt
  | [], _, _, _, _ => by simp [findValidChallenge]
  | b :: rest, now, ty, owner, c => by
    intro h
    simp only [findValidChallenge] at h
    by_cases hb : challengeEligible now ty owner b = true
    · rw [if_pos hb] at h
      injection h with h
      rcases hr : findValidChallenge rest now ty owner with _ | r
      · rw [hr] at h
        simp only [pickNewer] at h
        subst h
        refine ⟨by simp, hb, ?_⟩
        intro x hx hel
        rcases List.mem_cons.mp hx with rfl | hx
        · exact Nat.le_refl _
        · rw [findValidChallenge_none rest now ty owner hr x hx] at hel
          exact Bool.noConfusion hel
      · rw [hr] at h
        simp only [pickNewer] at h
        obtain ⟨hmem, hel, hmax⟩ := findValidChallenge_spec rest now ty owner r hr
        split at h
        · rename_i hgt
          subst h
          refine ⟨List.mem_cons_of_mem _ hmem, hel, ?_⟩
          intro x hx hx'
          rcases List.mem_cons.mp hx with rfl | hx
          · omega
          · exact hmax x hx hx'
        · rename_i hgt
          subst h
          refine ⟨by simp, hb, ?_⟩
          intro x hx hx'
          rcases List.mem_cons.mp hx with rfl | hx
          · exact Nat.le_refl _
          · have := hmax x hx hx'
            omega
    · rw [if_neg hb] at h
      obtain ⟨hmem, hel, hmax⟩ := findValidChallenge_spec rest now ty owner c h
      refine ⟨List.mem_cons_of_mem _ hmem, hel, ?_⟩
      intro x hx hx'
      rcases List.mem_cons.mp hx with rfl | hx
      · exact absurd hx' hb
      · exact hmax x hx hx'

theorem challengeEligible_iff (now : Nat) (ty : String) (owner : Option String) (x : Challenge) :
    challengeEligible now ty owner x = true ↔
      x.type = ty ∧ x.used = false ∧ now < x.expiresAt ∧
        (∀ u, owner = some u → u ≠ "" → x.userId = u) := by
  unfold challengeEligible
  rcases owner with _ | u
  · simp
    tauto
  · by_cases hu : u = ""
    · subst hu
      simp
      tauto
    · simp only [Bool.and_eq_true, beq_iff_eq, decide_eq_true_eq, if_neg hu]
      constructor
      · rintro ⟨⟨⟨h1, h2⟩, h3⟩, h4⟩
        exact ⟨h1, h2, h3, fun u' hu' _ => by injection hu' with hu'; subst hu'; exact h4⟩
      · rintro ⟨h1, h2, h3, h4⟩
        exact ⟨⟨⟨h1, h2⟩, h3⟩, h4 u rfl hu⟩

/-- C4: a successful `findValidChallenge` lookup returns a stored challenge
of the requested type that is unused and whose expiry lies strictly in the
future (never an expired or used challenge, even if cleanup has not run),
matching the owner filter when one is supplied (no owner filter when the
`ownerId` argument is absent or empty), and no other eligible challenge in
the store was created later. -/
theorem findValidChallenge_sound (cs : List Challenge) (now : Nat) (ty : String)
    (owner : Option String) (c : Challenge)
    (h : findValidChallenge cs now ty owner = some c) :
    c ∈ cs ∧ c.type = ty ∧ c.used = false ∧ now < c.expiresAt ∧
      (∀ u, owner = some u → u ≠ "" → c.userId = u) ∧
      ∀ x ∈ cs, x.type = ty → x.used = false → now < x.expiresAt →
        (∀ u, owner = some u → u ≠ "" → x.userId = u) → x.createdAt ≤ c.createdAt := by
  obtain ⟨hmem, hel, hmax⟩ := findValidChallenge_spec cs now ty owner c h
  obtain ⟨h1, h2, h3, h4⟩ := (challengeEligible_iff now ty owner c).mp hel
  refine ⟨hmem, h1, h2, h3, h4, ?_⟩
  intro x hx hx1 hx2 hx3 hx4
  exact hmax x hx ((challengeEligible_iff now ty owner x).mpr ⟨hx1, hx2, hx3, hx4⟩)

/-- An older and a newer unused authentication challenge for user "u1". -/
def chOld : Challenge := ⟨"c1", "u1", "v1", "authentication", 1, 1000, false⟩

def chNew : Challenge := ⟨"c2", "u1", "v2", "authentication", 5, 1000, false⟩

/-- Witness for C4: the owner-scoped lookup over two eligible challenges
returns the more recently created one, and it satisfies every clause. -/
theorem findValidChallenge_sound_witness :
    chNew ∈ [chOld, chNew] ∧ chNew.type = "authentication" ∧ chNew.used = false ∧
      100 < chNew.expiresAt ∧
      (∀ u, (some "u1" : Option String) = some u → u ≠ "" → chNew.userId = u) ∧
      ∀ x ∈ [chOld, chNew], x.type = "authentication" → x.used = false → 100 < x.expiresAt →
        (∀ u, (some "u1" : Option String) = some u → u ≠ "" → x.userId = u) →
        x.createdAt ≤ chNew.createdAt :=
  findValidChallenge_sound [chOld, chNew] 100 "authentication" (some "u1") chNew (by decide)

/-! ### UserModel and CredentialModel (`src/unnamed/part_008`) -/

def findByUsername (us : List User) (name : String) : Option User :=
  us.find? (·.username == name)

def findByEmail (us : List User) (email : String) : Option User :=
  us.find? (·.email == some email)

/-- `UserModel.findByUsernameOrEmail`: treat the identifier as an email
when it contains `'@'`. -/
def findByUsernameOrEmail (us : List User) (ident : String) : Option User :=
  if ident.data.contains '@' then findByEmail us ident else findByUsername us ident

def findUserById (us : List User) (uid : String) : Option User :=
  us.find? (·.id == uid)

/-- JavaScript truthiness of an optional string. -/
def optTruthy : Option String → Bool
  | some s => !(s == "")
  | none => false

/-- `UserModel.createUser`: `displayName || username`, email stored only
when truthy. -/
def createUser (us : List User) (freshId username : String)
    (displayName email : Option String) (now : Nat) : User × List User :=
  let u : User :=
    { id := freshId, username := username,
      email := if optTruthy email then email else none,
      displayName := if optTruthy displayName then displayName.getD username else username,
      createdAt := now, lastLoginAt := none, isActive := true,
      passkeyRegistrations := 0, otpFallbackUsage := 0,
      successfulAuthentications := 0, failedAuthentications := 0 }
  (u, us ++ [u])

/-- `UserModel.incrementSuccessfulAuthentications`: `$inc` the counter and
`$set lastLoginAt` on the first document with this id. -/
def incrementSuccessfulAuthentications : List User → String → Nat → List User
  | [], _, _ => []
  | u :: rest, uid, now =>
    if u.id = uid then
      { u with successfulAuthentications := u.successfulAuthentications + 1,
               lastLoginAt := some now } :: rest
    else u :: incrementSuccessfulAuthentications rest uid now

def findCredById (cs : List Credential) (cid : String) : Option Credential :=
  cs.find? (·.id == cid)

def credsByUserId (cs : List Credential) (uid : String) : List Credential :=
  cs.filter (·.userId == uid)

/-- `CredentialModel.updateCounter` (`src/unnamed/part_008` 153-165):
`updateOne(\x7b id \x7d, $set counter/lastUsedAt, $inc useCount)`.  The stored
counter is overwritten unconditionally — no comparison with the previous
value is made — and the `$inc` means any matched document is modified, so
the call reports `true` on any match. -/
def updateCounter : List Credential → String → Nat → Nat → Bool × List Credential
  | [], _, _, _ => (false, [])
  | c :: rest, cid, newCounter, now =>
    if c.id = cid then
      (true, { c with counter := newCounter, lastUsedAt := some now,
                      useCount := c.useCount + 1 } :: rest)
    else
      let r := updateCounter rest cid newCounter now
      (r.1, c :: r.2)

/-! ### SecurityEventModel (`src/packages/server/src/models/SecurityEventModel.ts`) -/

/-- `SecurityEventModel.logEvent` — append-only insert (request metadata
`ipAddress`/`userAgent` is not modelled; event payloads are carried as the
plain strings the call sites pass). -/
def logEvent (evs : List SecurityEvent) (freshId eventType eventData : String)
    (userId : Option String) (severity : String) (now : Nat) : List SecurityEvent :=
  evs ++ [{ id := freshId, userId := userId.getD "", eventType := eventType,
            eventData := eventData, timestamp := now, severity := severity }]

/-! ### Controller state and results -/

/-- The Mongo-backed stores the WebAuthn controller touches. -/
structure ServerState where
  users : List User
  credentials : List Credential
  challenges : List Challenge
  events : List SecurityEvent
deriving DecidableEq, Repr

/-- Outcome of a controller call: the JSON response or a thrown `AppError`. -/
inductive ApiResult (α : Type) where
  | ok : α → ApiResult α
  | error : AppError → ApiResult α
deriving DecidableEq, Repr

/-- Response payload of a successful registration start. -/
structure RegStartOk where
  userId : String
  username : String
  displayName : String
deriving DecidableEq, Repr

/-- Tail of `WebAuthnController.startRegistration` after the subject is
resolved or created: the external verifier generates options carrying the
fresh `challengeValue`, the challenge is persisted bound to the subject,
and a low-severity event is logged. -/
def startRegistrationProceed (st : ServerState) (user : User) (users' : List User)
    (handle freshChallengeId freshEventId challengeValue : String) (now : Nat) :
    ApiResult RegStartOk × ServerState :=
  let chals := (createChallenge st.challenges freshChallengeId challengeValue "registration"
    (some user.id) now).2
  let evs := logEvent st.events freshEventId "registration_start" handle (some user.id) "low" now
  (.ok ⟨user.id, user.username, user.displayName⟩,
   { st with users := users', challenges := chals, events := evs })

/-- `WebAuthnController.startRegistration` (`api.ts` 631-701).  Fresh
`nanoid()` values and the verifier-generated challenge are parameters. -/
def startRegistration (st : ServerState) (username : String)
    (email displayName : Option String)
    (freshUserId freshChallengeId freshEventId challengeValue : String) (now : Nat) :
    ApiResult RegStartOk × ServerState :=
  if username = "" then (.error ⟨"Username is required", 400⟩, st)
  else
    match findByUsernameOrEmail st.users username with
    | some user =>
      startRegistrationProceed st user st.users username freshChallengeId freshEventId
        challengeValue now
    | none =>
      if optTruthy email ∧ (findByEmail st.users (email.getD "")).isSome then
        (.error ⟨"Email already in use. Please sign in or use a different email.", 409⟩, st)
      else
        let cu := createUser st.users freshUserId username displayName email now
        startRegistrationProceed st cu.1 cu.2 username freshChallengeId freshEventId
          challengeValue now

/-- C6: a registration start whose handle resolves to no existing user and
whose supplied email is already owned fails with the 409 Conflict error,
and the whole state — in particular the user store — is unchanged. -/
theorem startRegistration_email_conflict (st : ServerState) (username e : String)
    (displayName : Option String) (fu fc fe cv : String) (now : Nat) (owner : User)
    (hname : username ≠ "")
    (hu : findByUsernameOrEmail st.users username = none)
    (he : e ≠ "")
    (howner : findByEmail st.users e = some owner) :
    startRegistration st username (some e) displayName fu fc fe cv now =
      (.error ⟨"Email already in use. Please sign in or use a different email.", 409⟩, st) := by
  unfold startRegistration
  rw [if_neg hname, hu]
  simp [optTruthy, he, howner]

/-- The existing owner of `bob@example.com`. -/
def bob2 : User :=
  { id := "u-bob2", username := "bob2", email := some "bob@example.com",
    displayName := "bob2", createdAt := 0, lastLoginAt := none, isActive := true,
    passkeyRegistrations := 0, otpFallbackUsage := 0,
    successfulAuthentications := 0, failedAuthentications := 0 }

/-- Witness for C6: registering handle "bob" with the already-owned email
`bob@example.com` is rejected with 409 and the state is untouched. -/
theorem startRegistration_email_conflict_witness :
    startRegistration ⟨[bob2], [], [], []⟩ "bob" (some "bob@example.com") none
        "u1" "c1" "e1" "chv" 50 =
      (.error ⟨"Email already in use. Please sign in or use a different email.", 409⟩,
        ⟨[bob2], [], [], []⟩) :=
  startRegistration_email_conflict ⟨[bob2], [], [], []⟩ "bob" "bob@example.com" none
    "u1" "c1" "e1" "chv" 50 bob2 (by decide) (by decide) (by decide) (by decide)

/-! ### `WebAuthnController.startAuthentication` (`api.ts` 798-909) -/

/-- `startAuthentication`: resolve the optional handle; a resolved subject
with zero enrolled credentials fails fast (`api.ts` 816-823) before any
options are generated or any challenge persisted; otherwise the external
verifier generates options (scoped or discoverable — the fallback between
the two does not touch the stores) carrying `challengeValue`, the
challenge is stored bound to `user?.id`, and a low-severity event logged. -/
def startAuthentication (st : ServerState) (username : Option String)
    (freshChallengeId freshEventId challengeValue : String) (now : Nat) :
    ApiResult Unit × ServerState :=
  let userOpt := if optTruthy username then findByUsernameOrEmail st.users (username.getD "")
                 else none
  match userOpt with
  | some u =>
    if credsByUserId st.credentials u.id = [] then
      (.error ⟨"No passkeys registered for this user. Please register a passkey first.", 400⟩, st)
    else
      let chals := (createChallenge st.challenges freshChallengeId challengeValue
        "authentication" (some u.id) now).2
      let evs := logEvent st.events freshEventId "authentication_start" (username.getD "")
        (some u.id) "low" now
      (.ok (), { st with challenges := chals, events := evs })
  | none =>
    let chals := (createChallenge st.challenges freshChallengeId challengeValue
      "authentication" none now).2
    let evs := logEvent st.events freshEventId "authentication_start" (username.getD "")
      none "low" now
    (.ok (), { st with challenges := chals, events := evs })

/-- C7: an authentication start whose handle resolves to an existing user
with zero enrolled credentials fails with the dedicated
no-passkeys-registered error (400) before any options are generated, and
the state — in particular the challenge store — is unchanged. -/
theorem startAuthentication_no_credentials (st : ServerState) (handle : String)
    (fc fe cv : String) (now : Nat) (u : User)
    (hh : handle ≠ "")
    (hu : findByUsernameOrEmail st.users handle = some u)
    (hz : credsByUserId st.credentials u.id = []) :
    startAuthentication st (some handle) fc fe cv now =
      (.error ⟨"No passkeys registered for this user. Please register a passkey first.", 400⟩,
        st) := by
  unfold startAuthentication
  have ht : optTruthy (some handle) = true := by
    simp [optTruthy, hh]
  rw [if_pos ht]
  simp only [Option.getD]
  rw [hu]
  simp [hz]

/-- A user with no enrolled credentials. -/
def carol : User :=
  { id := "u-carol", username := "carol", email := none,
    displayName := "carol", createdAt := 0, lastLoginAt := none, isActive := true,
    passkeyRegistrations := 0, otpFallbackUsage := 0,
    successfulAuthentications := 0, failedAuthentications := 0 }

/-- Witness for C7: authentication start for `carol`, who has zero
credentials, fails with the dedicated error and stores stay unchanged. -/
theorem startAuthentication_no_credentials_witness :
    startAuthentication ⟨[carol], [], [], []⟩ (some "carol") "c1" "e1" "chv" 50 =
      (.error ⟨"No passkeys registered for this user. Please register a passkey first.", 400⟩,
        ⟨[carol], [], [], []⟩) :=
  startAuthentication_no_credentials ⟨[carol], [], [], []⟩ "carol" "c1" "e1" "chv" 50 carol
    (by decide) (by decide) (by decide)

/-! ### `WebAuthnController.finishAuthentication` (`api.ts` 912-1096) -/

/-- Modelled from the spec (§4.2/§6): the external helper
`isoBase64URL.toBuffer` decodes a base64url string strictly to raw bytes,
throwing on input outside the url-safe alphabet or of impossible length;
the throw is modelled as `none`. -/
def isoBase64URLToBuffer (s : String) : Option (List Nat) :=
  if s.data.all isB64UrlChar ∧ s.length % 4 ≠ 1 then some (b64urlDecode s) else none

/-- The `userHandle` decode of `finishAuthentication` (`api.ts` 918-926):
`Buffer.from(rawHandle, 'base64url').toString('utf8')` never throws, so
the catch fallback (`findById(rawHandle)`) is unreachable. -/
def decodeUserHandle (h : String) : String :=
  ⟨utf8Lossy (b64urlDecode h)⟩

/-- Resolve the asserting subject from the response's user handle (absent
or empty handles are falsy and leave the subject unknown). -/
def resolveAuthUser (us : List User) (userHandle : Option String) : Option User :=
  if optTruthy userHandle then findUserById us (decodeUserHandle (userHandle.getD ""))
  else none

/-- The assertion response as the controller consumes it: the decoded
`rawId || id` string, the optional user handle, and the two facts the
external verifier extracts from it — whether the cryptographic assertion
checks out (`sigValid`) and the authenticator's reported signature counter
(`counter`, the verifier's `newCounter`). -/
structure AuthnResponse where
  userHandle : Option String
  credId : String
  sigValid : Bool
  counter : Nat
deriving DecidableEq, Repr

/-- The four-step credential resolution ladder (`api.ts` 936-980):
(1) direct `findById`; (2) `findById` of the canonicalized lookup id when
it differs; (3) scan the known subject's credentials for one whose
canonicalized stored id differs from the stored id and equals the lookup
id; (4) decode the canonicalized stored id and the raw lookup id to bytes
and compare byte-for-byte (decode failures skip the candidate). -/
def findCredentialRecord (creds : List Credential) (authUser : Option User)
    (credentialId : String) : Option Credential :=
  match findCredById creds credentialId with
  | some c => some c
  | none =>
    let rc := canonicalizeCredentialId credentialId
    match (if rc.canonical ≠ credentialId then findCredById creds rc.canonical else none) with
    | some c => some c
    | none =>
      let userCreds := match authUser with
        | some u => credsByUserId creds u.id
        | none => []
      match userCreds.find? (fun cred =>
          let canon := canonicalizeCredentialId cred.id
          canon.canonical != cred.id && canon.canonical == credentialId) with
      | some c => some c
      | none =>
        userCreds.find? (fun cred =>
          match isoBase64URLToBuffer (canonicalizeCredentialId cred.id).canonical,
                isoBase64URLToBuffer credentialId with
          | some a, some b => a == b
          | _, _ => false)

/-- The best-effort migration step (`api.ts` 987-1002): when the stored
id's canonical form differs and both canonical byte decodes agree, the
in-memory record id is rewritten to the canonical form (the fire-and-forget
`updateCredential(storedCanon.canonical, \x7b\x7d)` matches no stored document
and carries an empty `$set`, so the store itself never changes). -/
def migratedId (credRec : Credential) (credentialId : String) : String :=
  let storedCanon := canonicalizeCredentialId credRec.id
  let receivedCanon := canonicalizeCredentialId credentialId
  let buffersMatch :=
    match isoBase64URLToBuffer storedCanon.canonical,
          isoBase64URLToBuffer receivedCanon.canonical with
    | some a, some b => a == b
    | _, _ => false
  if storedCanon.canonical ≠ credRec.id ∧ buffersMatch = true then storedCanon.canonical
  else credRec.id

/-- Result of the external verifier for an authentication. -/
structure VerifiedAuthn where
  verified : Bool
  newCounter : Nat
deriving DecidableEq, Repr

/-- Modelled from the spec: the external verifier capability
`verifyAuthentication(response, expectedChallenge, expectedOrigin,
expectedRpId, storedCredential)` of §6 returns `verified` plus the new
counter or throws; per §4.4(5)/§8 an assertion purporting a counter not
strictly greater than a nonzero stored counter fails verification
deterministically (the source delegates this entirely to
`verifyAuthenticationResponse` of the third-party library, which is not
part of this repository). -/
def verifyAuthenticationResponseSpec (resp : AuthnResponse) (storedCounter : Nat) :
    ApiResult VerifiedAuthn :=
  if resp.sigValid = false then .error ⟨"signature assertion failed", 400⟩
  else if 0 < storedCounter ∧ resp.counter ≤ storedCounter then
    .error ⟨"counter not strictly increasing", 400⟩
  else .ok ⟨true, resp.counter⟩

/-- Response payload of a successful authentication finish. -/
structure AuthFinishOk where
  userId : Option String
  username : Option String
deriving DecidableEq, Repr

/-- `WebAuthnController.finishAuthentication` (`api.ts` 912-1096): resolve
the subject from the user handle, resolve the credential through the
ladder (404 without logging when it fails), look up the pending challenge
— `findValidChallenge('authentication')`, with no owner argument — (400
without logging when absent), delegate to the external verifier (failure
logs a medium event and returns a generic 400), then commit: overwrite the
counter, mark the challenge used, bump the subject's counters, log a
low-severity success event. -/
def finishAuthentication (st : ServerState) (resp : AuthnResponse) (now : Nat)
    (freshEventId : String) : ApiResult AuthFinishOk × ServerState :=
  let authUser := resolveAuthUser st.users resp.userHandle
  match findCredentialRecord st.credentials authUser resp.credId with
  | none => (.error ⟨"Credential not found", 404⟩, st)
  | some credRec =>
    let effId := migratedId credRec resp.credId
    match findValidChallenge st.challenges now "authentication" none with
    | none => (.error ⟨"Invalid or expired challenge", 400⟩, st)
    | some challenge =>
      match verifyAuthenticationResponseSpec resp credRec.counter with
      | .error _ =>
        let evs := logEvent st.events freshEventId "authentication_failed" "" 
          (some credRec.userId) "medium" now
        (.error ⟨"Authentication verification failed", 400⟩, { st with events := evs })
      | .ok verification =>
        if verification.verified = false then
          (.error ⟨"Authentication verification failed", 400⟩, st)
        else
          let creds' := (updateCounter st.credentials effId verification.newCounter now).2
          let chals' := (markChallengeAsUsed st.challenges challenge.id).2
          let users' := incrementSuccessfulAuthentications st.users credRec.userId now
          let user := findUserById users' credRec.userId
          let evs' := logEvent st.events freshEventId "authentication_success" effId
            (some credRec.userId) "low" now
          (.ok ⟨user.map (·.id), user.map (·.username)⟩,
           { users := users', credentials := creds', challenges := chals', events := evs' })

theorem finishAuthentication_credNotFound (st : ServerState) (resp : AuthnResponse)
    (now : Nat) (fe : String)
    (hc : findCredentialRecord st.credentials (resolveAuthUser st.users resp.userHandle)
      resp.credId = none) :
    finishAuthentication st resp now fe = (.error ⟨"Credential not found", 404⟩, st) := by
  simp only [finishAuthentication, hc]

theorem finishAuthentication_challengeInvalid (st : ServerState) (resp : AuthnResponse)
    (now : Nat) (fe : String) (credRec : Credential)
    (hc : findCredentialRecord st.credentials (resolveAuthUser st.users resp.userHandle)
      resp.credId = some credRec)
    (hch : findValidChallenge st.challenges now "authentication" none = none) :
    finishAuthentication st resp now fe =
      (.error ⟨"Invalid or expired challenge", 400⟩, st) := by
  simp only [finishAuthentication, hc, hch]

theorem finishAuthentication_verifyFailed (st : ServerState) (resp : AuthnResponse)
    (now : Nat) (fe : String) (credRec : Credential) (ch : Challenge) (e : AppError)
    (hc : findCredentialRecord st.credentials (resolveAuthUser st.users resp.userHandle)
      resp.credId = some credRec)
    (hch : findValidChallenge st.challenges now "authentication" none = some ch)
    (hv : verifyAuthenticationResponseSpec resp credRec.counter = .error e) :
    finishAuthentication st resp now fe =
      (.error ⟨"Authentication verification failed", 400⟩,
        { st with events := (logEvent st.events fe "authentication_failed" ""
            (some credRec.userId) "medium" now) }) := by
  simp only [finishAuthentication, hc, hch, hv]

theorem finishAuthentication_success (st : ServerState) (resp : AuthnResponse)
    (now : Nat) (fe : String) (credRec : Credential) (ch : Challenge)
    (hc : findCredentialRecord st.credentials (resolveAuthUser st.users resp.userHandle)
      resp.credId = some credRec)
    (hch : findValidChallenge st.challenges now "authentication" none = some ch)
    (hsig : resp.sigValid = true)
    (hcnt : ¬(0 < credRec.counter ∧ resp.counter ≤ credRec.counter)) :
    finishAuthentication st resp now fe =
      (.ok ⟨(findUserById (incrementSuccessfulAuthentications st.users credRec.userId now)
              credRec.userId).map (·.id),
            (findUserById (incrementSuccessfulAuthentications st.users credRec.userId now)
              credRec.userId).map (·.username)⟩,
        { users := incrementSuccessfulAuthentications st.users credRec.userId now,
          credentials := (updateCounter st.credentials (migratedId credRec resp.credId)
            resp.counter now).2,
          challenges := (markChallengeAsUsed st.challenges ch.id).2,
          events := logEvent st.events fe "authentication_success"
            (migratedId credRec resp.credId) (some credRec.userId) "low" now }) := by
  have hv : verifyAuthenticationResponseSpec resp credRec.counter = .ok ⟨true, resp.counter⟩ := by
    unfold verifyAuthenticationResponseSpec
    rw [if_neg (by simp [hsig]), if_neg hcnt]
  simp only [finishAuthentication, hc, hch, hv]
  simp

/-- A stored credential with nonzero counter 5. -/
def credC2 : Credential := ⟨"cred-a", "u1", [1, 2, 3], 5, none, [], 0, none, 0⟩

/-- C2 (counterexample): an `updateCounter` call presenting 3 against the
stored nonzero counter 5 is not rejected: it reports success and quietly
overwrites the stored counter with the lower value 3. -/
theorem updateCounter_accepts_lower :
    (updateCounter [credC2] "cred-a" 3 100).1 = true ∧
      (updateCounter [credC2] "cred-a" 3 100).2.map (·.counter) = [3] := by decide

/-- C2 (amended): `CredentialModel.updateCounter` itself performs no
monotonicity check and overwrites the stored counter unconditionally; on
the authentication completion path the rejection is enforced solely by the
external verifier (modelled from the spec) before `updateCounter` is ever
invoked: when the resolved credential's stored counter is nonzero and the
presented counter does not strictly exceed it, `finishAuthentication`
fails with the generic verification error and leaves the credential store
— hence the stored counter — unchanged, and any successful completion
implies the presented counter strictly exceeds the nonzero stored one. -/
theorem finishAuthentication_counter_guard (st : ServerState) (resp : AuthnResponse)
    (now : Nat) (fe : String) (credRec : Credential) (ch : Challenge)
    (hc : findCredentialRecord st.credentials (resolveAuthUser st.users resp.userHandle)
      resp.credId = some credRec)
    (h0 : credRec.counter ≠ 0)
    (hch : findValidChallenge st.challenges now "authentication" none = some ch) :
    (resp.counter ≤ credRec.counter →
      (finishAuthentication st resp now fe).1 =
        .error ⟨"Authentication verification failed", 400⟩ ∧
      (finishAuthentication st resp now fe).2.credentials = st.credentials ∧
      (finishAuthentication st resp now fe).2.challenges = st.challenges) ∧
    (∀ a, (finishAuthentication st resp now fe).1 = ApiResult.ok a →
      credRec.counter < resp.counter) := by
  constructor
  · intro hle
    have hv : ∃ e, verifyAuthenticationResponseSpec resp credRec.counter = .error e := by
      unfold verifyAuthenticationResponseSpec
      by_cases hsig : resp.sigValid = false
      · exact ⟨_, by rw [if_pos hsig]⟩
      · exact ⟨_, by rw [if_neg hsig, if_pos ⟨by omega, hle⟩]⟩
    obtain ⟨e, hv⟩ := hv
    rw [finishAuthentication_verifyFailed st resp now fe credRec ch e hc hch hv]
    exact ⟨rfl, rfl, rfl⟩
  · intro a ha
    by_cases hcnt : 0 < credRec.counter ∧ resp.counter ≤ credRec.counter
    · have hv : ∃ e, verifyAuthenticationResponseSpec resp credRec.counter = .error e := by
        unfold verifyAuthenticationResponseSpec
        by_cases hsig : resp.sigValid = false
        · exact ⟨_, by rw [if_pos hsig]⟩
        · exact ⟨_, by rw [if_neg hsig, if_pos hcnt]⟩
      obtain ⟨e, hv⟩ := hv
      rw [finishAuthentication_verifyFailed st resp now fe credRec ch e hc hch hv] at ha
      exact ApiResult.noConfusion ha
    · omega

/-- An unused, unexpired ownerless authentication challenge. -/
def chAuthW : Challenge := ⟨"ch-w", "", "v", "authentication", 1, 100000, false⟩

/-- Witness for the amended C2 theorem: presented counter 3 against stored
counter 5 is rejected with the generic verification error and the
credential store is unchanged. -/
theorem finishAuthentication_counter_guard_witness :
    ((3 : Nat) ≤ credC2.counter →
      (finishAuthentication ⟨[], [credC2], [chAuthW], []⟩ ⟨none, "cred-a", true, 3⟩ 100 "e1").1 =
        .error ⟨"Authentication verification failed", 400⟩ ∧
      (finishAuthentication ⟨[], [credC2], [chAuthW], []⟩
        ⟨none, "cred-a", true, 3⟩ 100 "e1").2.credentials = [credC2] ∧
      (finishAuthentication ⟨[], [credC2], [chAuthW], []⟩
        ⟨none, "cred-a", true, 3⟩ 100 "e1").2.challenges = [chAuthW]) ∧
    (∀ a, (finishAuthentication ⟨[], [credC2], [chAuthW], []⟩
        ⟨none, "cred-a", true, 3⟩ 100 "e1").1 = ApiResult.ok a → credC2.counter < 3) :=
  finishAuthentication_counter_guard ⟨[], [credC2], [chAuthW], []⟩ ⟨none, "cred-a", true, 3⟩
    100 "e1" credC2 chAuthW (by decide) (by decide) (by decide)

/-- The asserting subject of the C5 scenario. -/
def u1C5 : User := ⟨"u1", "user1", none, "user1", 0, none, true, 0, 0, 0, 0⟩

/-- An unused, unexpired authentication challenge owned by subject "u1". -/
def chA5 : Challenge := ⟨"chA", "u1", "vA", "authentication", 1, 100000, false⟩

/-- A more recent unused, unexpired authentication challenge owned by a
different user "u2". -/
def chB5 : Challenge := ⟨"chB", "u2", "vB", "authentication", 2, 100000, false⟩

/-- Subject "u1"'s sole credential. -/
def credC5 : Credential := ⟨"AAAA", "u1", [1], 0, none, [], 0, none, 0⟩

/-- An assertion response whose user handle ("dTE", base64url of "u1")
resolves the subject. -/
def respC5 : AuthnResponse := ⟨some "dTE", "AAAA", true, 1⟩

def stC5 : ServerState := ⟨[u1C5], [credC5], [chA5, chB5], []⟩

/-- C5 (counterexample): the asserting subject is known (the user handle
resolves to "u1") and an unused, unexpired authentication challenge owned
by "u1" exists, yet the completion consumes the most recent challenge
regardless of owner — here the one owned by the different user "u2" —
leaving the subject's own challenge unused. -/
theorem finishAuthentication_not_owner_scoped :
    resolveAuthUser stC5.users respC5.userHandle = some u1C5 ∧
    chA5.userId = "u1" ∧ chA5.type = "authentication" ∧ chA5.used = false ∧
    (100 : Nat) < chA5.expiresAt ∧ chB5.userId = "u2" ∧
    (finishAuthentication stC5 respC5 100 "e1").2.challenges =
      [chA5, { chB5 with used := true }] := by decide

/-- C5 (amended): on authentication completion the challenge looked up and
consumed is `findValidChallenge('authentication')` with no owner argument:
the most recent unused, unexpired authentication challenge across ALL
owners, even when the asserting subject is known. -/
theorem finishAuthentication_challenge_unscoped (st : ServerState) (resp : AuthnResponse)
    (now : Nat) (fe : String) (credRec : Credential) (ch : Challenge)
    (hc : findCredentialRecord st.credentials (resolveAuthUser st.users resp.userHandle)
      resp.credId = some credRec)
    (hch : findValidChallenge st.challenges now "authentication" none = some ch)
    (hsig : resp.sigValid = true)
    (hcnt : ¬(0 < credRec.counter ∧ resp.counter ≤ credRec.counter)) :
    (finishAuthentication st resp now fe).2.challenges =
      (markChallengeAsUsed st.challenges ch.id).2 ∧
    ch ∈ st.challenges ∧ ch.type = "authentication" ∧ ch.used = false ∧ now < ch.expiresAt ∧
    ∀ x ∈ st.challenges, x.type = "authentication" → x.used = false → now < x.expiresAt →
      x.createdAt ≤ ch.createdAt := by
  have heq := finishAuthentication_success st resp now fe credRec ch hc hch hsig hcnt
  rw [heq]
  obtain ⟨hmem, hel, hmax⟩ :=
    findValidChallenge_spec st.challenges now "authentication" none ch hch
  obtain ⟨h1, h2, h3, _⟩ := (challengeEligible_iff now "authentication" none ch).mp hel
  refine ⟨rfl, hmem, h1, h2, h3, ?_⟩
  intro x hx hx1 hx2 hx3
  refine hmax x hx ((challengeEligible_iff now "authentication" none x).mpr
    ⟨hx1, hx2, hx3, ?_⟩)
  intro u hu
  exact absurd hu (by simp)

/-- Witness for the amended C5 theorem at the two-challenge state: the
consumed challenge is the globally most recent eligible one. -/
theorem finishAuthentication_challenge_unscoped_witness :
    (finishAuthentication stC5 respC5 100 "e1").2.challenges =
      (markChallengeAsUsed stC5.challenges chB5.id).2 ∧
    chB5 ∈ stC5.challenges ∧ chB5.type = "authentication" ∧ chB5.used = false ∧
    (100 : Nat) < chB5.expiresAt ∧
    ∀ x ∈ stC5.challenges, x.type = "authentication" → x.used = false →
      (100 : Nat) < x.expiresAt → x.createdAt ≤ chB5.createdAt :=
  finishAuthentication_challenge_unscoped stC5 respC5 100 "e1" credC5 chB5
    (by decide) (by decide) (by decide) (by decide)

/-! ### OTPController (`api.ts` 217-576) -/

/-- One entry of the in-memory `otpStore` map.  Registration tickets carry
`email`/`phoneNumber`; authentication tickets carry `userId` and the
`identifier` used to request the code.  `username` is `username || email`
at send time. -/
structure OTPData where
  id : String
  username : String
  email : Option String
  userId : Option String
  identifier : Option String
  otp : String
  method : String
  type : String
  attempts : Nat
  maxAttempts : Nat
  expiresAt : Nat
  verified : Bool
  createdAt : Nat
deriving DecidableEq, Repr

/-- `otpStore.get` — the map keyed by ticket id. -/
def getOTP (m : List OTPData) (k : String) : Option OTPData :=
  m.find? (·.id == k)

/-- `otpStore.delete`. -/
def deleteOTP (m : List OTPData) (k : String) : List OTPData :=
  m.filter (·.id != k)

/-- `storeOTP` — `Map.set`: replace the entry with this id, or insert.
(The auto-cleanup timer it also schedules is a garbage-collection
optimization outside the model.) -/
def storeOTP (m : List OTPData) (v : OTPData) : List OTPData :=
  if (m.find? (·.id == v.id)).isSome then m.map (fun x => if x.id == v.id then v else x)
  else m ++ [v]

/-- The stores the OTP controller touches. -/
structure OTPState where
  otps : List OTPData
  users : List User
  events : List SecurityEvent
deriving DecidableEq, Repr

/-- Response payload of a successful OTP verification. -/
structure OTPVerifiedOk where
  userId : String
  username : String
deriving DecidableEq, Repr

/-- `OTPController.verifyRegistrationOTP` (`api.ts` 320-394).  The
JavaScript `otpData.attempts++` mutates the object held inside the map, so
the incremented counter is persisted at the moment of the increment —
before the code comparison is evaluated; the later `storeOTP` on the
mismatch path re-stores the same object. -/
def verifyRegistrationOTP (st : OTPState) (otpId otp username : String) (now : Nat)
    (freshUserId freshEventId : String) : ApiResult OTPVerifiedOk × OTPState :=
  if otpId = "" ∨ otp = "" ∨ username = "" then
    (.error ⟨"OTP ID, OTP code, and username/email are required", 400⟩, st)
  else
    match getOTP st.otps otpId with
    | none => (.error ⟨"Invalid or expired OTP", 400⟩, st)
    | some otpData =>
      if otpData.expiresAt < now then
        (.error ⟨"OTP has expired", 400⟩, { st with otps := deleteOTP st.otps otpId })
      else if otpData.maxAttempts ≤ otpData.attempts then
        let evs := logEvent st.events freshEventId "otp_max_attempts" username none "medium" now
        (.error ⟨"Maximum OTP attempts exceeded", 429⟩,
          { st with otps := deleteOTP st.otps otpId, events := evs })
      else
        let t := { otpData with attempts := otpData.attempts + 1 }
        let otps1 := storeOTP st.otps t
        if otpData.otp ≠ otp ∨ otpData.username ≠ username then
          let evs := logEvent st.events freshEventId "otp_failed" username none "low" now
          (.error ⟨"Invalid OTP code", 400⟩,
            { st with otps := storeOTP otps1 t, events := evs })
        else
          let cu := match findByUsernameOrEmail st.users username with
            | some u => (u, st.users)
            | none => createUser st.users freshUserId otpData.username none otpData.email now
          let evs := logEvent st.events freshEventId "otp_registration_success" username
            (some cu.1.id) "low" now
          (.ok ⟨cu.1.id, cu.1.username⟩,
            { otps := deleteOTP otps1 otpId, users := cu.2, events := evs })

/-- `OTPController.verifyAuthenticationOTP` (`api.ts` 481-559).  Same
state-machine discipline; the expected identifier is
`otpData.identifier ?? otpData.username`, the max-attempts event is
high-severity, and success loads the existing subject by `userId`. -/
def verifyAuthenticationOTP (st : OTPState) (otpId otp : String)
    (providedIdentifier : Option String) (now : Nat) (freshEventId : String) :
    ApiResult OTPVerifiedOk × OTPState :=
  if otpId = "" ∨ otp = "" ∨ optTruthy providedIdentifier = false then
    (.error ⟨"OTP ID, OTP code, and username/email are required", 400⟩, st)
  else
    match getOTP st.otps otpId with
    | none => (.error ⟨"Invalid or expired OTP", 400⟩, st)
    | some otpData =>
      if otpData.expiresAt < now then
        (.error ⟨"OTP has expired", 400⟩, { st with otps := deleteOTP st.otps otpId })
      else if otpData.maxAttempts ≤ otpData.attempts then
        let evs := logEvent st.events freshEventId "auth_otp_max_attempts"
          (providedIdentifier.getD "") otpData.userId "high" now
        (.error ⟨"Maximum OTP attempts exceeded", 429⟩,
          { st with otps := deleteOTP st.otps otpId, events := evs })
      else
        let t := { otpData with attempts := otpData.attempts + 1 }
        let otps1 := storeOTP st.otps t
        if otpData.otp ≠ otp ∨ some (otpData.identifier.getD otpData.username)
            ≠ providedIdentifier then
          let evs := logEvent st.events freshEventId "auth_otp_failed"
            (providedIdentifier.getD "") otpData.userId "medium" now
          (.error ⟨"Invalid OTP code", 400⟩,
            { st with otps := storeOTP otps1 t, events := evs })
        else
          match findUserById st.users (otpData.userId.getD "") with
          | none => (.error ⟨"User not found", 404⟩, { st with otps := otps1 })
          | some user =>
            let users' := incrementSuccessfulAuthentications st.users user.id now
            let evs := logEvent st.events freshEventId "auth_otp_success"
              (providedIdentifier.getD "") (some user.id) "low" now
            (.ok ⟨user.id, user.username⟩,
              { otps := deleteOTP otps1 otpId, users := users', events := evs })

theorem getOTP_id {m : List OTPData} {k : String} {t : OTPData}
    (h : getOTP m k = some t) : t.id = k := by
  have := List.find?_some h
  simpa using this

theorem find_replace (m : List OTPData) (v : OTPData)
    (h : (m.find? (·.id == v.id)).isSome) :
    List.find? (fun x => x.id == v.id) (m.map fun x => if x.id == v.id then v else x) =
      some v := by
  induction m with
  | nil => simp at h
  | cons p m ih =>
    rw [List.map_cons]
    by_cases hp : (p.id == v.id) = true
    · rw [if_pos hp]
      exact List.find?_cons_of_pos _ (by simp)
    · rw [if_neg hp]
      rw [List.find?_cons_of_neg _ (by simpa using hp)]
      apply ih
      rw [List.find?_cons_of_neg _ (by simpa using hp)] at h
      exact h

theorem getOTP_storeOTP (m : List OTPData) (v : OTPData) :
    getOTP (storeOTP m v) v.id = some v := by
  unfold getOTP storeOTP
  by_cases h : (m.find? (·.id == v.id)).isSome
  · rw [if_pos h]
    exact find_replace m v h
  · rw [if_neg h]
    rw [List.find?_append]
    rw [Option.not_isSome_iff_eq_none] at h
    simp [h]

theorem getOTP_deleteOTP (m : List OTPData) (k : String) :
    getOTP (deleteOTP m k) k = none := by
  unfold getOTP deleteOTP
  rw [List.find?_eq_none]
  intro x hx
  have := (List.mem_filter.mp hx).2
  simpa using this

theorem verifyRegistrationOTP_missing (st : OTPState) (otpId otp username : String)
    (now : Nat) (fu fe : String)
    (h1 : otpId ≠ "") (h2 : otp ≠ "") (h3 : username ≠ "")
    (hg : getOTP st.otps otpId = none) :
    verifyRegistrationOTP st otpId otp username now fu fe =
      (.error ⟨"Invalid or expired OTP", 400⟩, st) := by
  simp only [verifyRegistrationOTP, hg]
  rw [if_neg (by tauto)]

theorem verifyRegistrationOTP_exhausted (st : OTPState) (otpId otp username : String)
    (now : Nat) (fu fe : String) (t : OTPData)
    (h1 : otpId ≠ "") (h2 : otp ≠ "") (h3 : username ≠ "")
    (hg : getOTP st.otps otpId = some t)
    (hexp : ¬ t.expiresAt < now)
    (hatt : t.maxAttempts ≤ t.attempts) :
    (verifyRegistrationOTP st otpId otp username now fu fe).1 =
      .error ⟨"Maximum OTP attempts exceeded", 429⟩ ∧
    getOTP (verifyRegistrationOTP st otpId otp username now fu fe).2.otps otpId = none ∧
    (verifyRegistrationOTP st otpId otp username now fu fe).2.events =
      st.events ++ [⟨fe, "", "otp_max_attempts", username, now, "medium"⟩] := by
  simp only [verifyRegistrationOTP, hg]
  rw [if_neg (by tauto), if_neg hexp, if_pos hatt]
  exact ⟨rfl, getOTP_deleteOTP _ _, rfl⟩

theorem verifyRegistrationOTP_mismatch (st : OTPState) (otpId otp username : String)
    (now : Nat) (fu fe : String) (t : OTPData)
    (h1 : otpId ≠ "") (h2 : otp ≠ "") (h3 : username ≠ "")
    (hg : getOTP st.otps otpId = some t)
    (hexp : ¬ t.expiresAt < now)
    (hatt : t.attempts < t.maxAttempts)
    (hmis : t.otp ≠ otp ∨ t.username ≠ username) :
    (verifyRegistrationOTP st otpId otp username now fu fe).1 =
      .error ⟨"Invalid OTP code", 400⟩ ∧
    getOTP (verifyRegistrationOTP st otpId otp username now fu fe).2.otps otpId =
      some { t with attempts := t.attempts + 1 } := by
  have hid : t.id = otpId := getOTP_id hg
  simp only [verifyRegistrationOTP, hg]
  rw [if_neg (by tauto), if_neg hexp, if_neg (by omega), if_pos hmis]
  refine ⟨rfl, ?_⟩
  rw [← hid]
  exact getOTP_storeOTP _ { t with attempts := t.attempts + 1 }

theorem verifyAuthenticationOTP_missing (st : OTPState) (otpId otp ident : String)
    (now : Nat) (fe : String)
    (h1 : otpId ≠ "") (h2 : otp ≠ "") (h3 : ident ≠ "")
    (hg : getOTP st.otps otpId = none) :
    verifyAuthenticationOTP st otpId otp (some ident) now fe =
      (.error ⟨"Invalid or expired OTP", 400⟩, st) := by
  simp only [verifyAuthenticationOTP, hg]
  rw [if_neg (by simp [optTruthy, h1, h2, h3])]

theorem verifyAuthenticationOTP_exhausted (st : OTPState) (otpId otp ident : String)
    (now : Nat) (fe : String) (t : OTPData)
    (h1 : otpId ≠ "") (h2 : otp ≠ "") (h3 : ident ≠ "")
    (hg : getOTP st.otps otpId = some t)
    (hexp : ¬ t.expiresAt < now)
    (hatt : t.maxAttempts ≤ t.attempts) :
    (verifyAuthenticationOTP st otpId otp (some ident) now fe).1 =
      .error ⟨"Maximum OTP attempts exceeded", 429⟩ ∧
    getOTP (verifyAuthenticationOTP st otpId otp (some ident) now fe).2.otps otpId = none ∧
    (verifyAuthenticationOTP st otpId otp (some ident) now fe).2.events =
      st.events ++ [⟨fe, t.userId.getD "", "auth_otp_max_attempts", ident, now, "high"⟩] := by
  simp only [verifyAuthenticationOTP, hg]
  rw [if_neg (by simp [optTruthy, h1, h2, h3]), if_neg hexp, if_pos hatt]
  exact ⟨rfl, getOTP_deleteOTP _ _, rfl⟩

theorem verifyAuthenticationOTP_mismatch (st : OTPState) (otpId otp ident : String)
    (now : Nat) (fe : String) (t : OTPData)
    (h1 : otpId ≠ "") (h2 : otp ≠ "") (h3 : ident ≠ "")
    (hg : getOTP st.otps otpId = some t)
    (hexp : ¬ t.expiresAt < now)
    (hatt : t.attempts < t.maxAttempts)
    (hmis : t.otp ≠ otp ∨ t.identifier.getD t.username ≠ ident) :
    (verifyAuthenticationOTP st otpId otp (some ident) now fe).1 =
      .error ⟨"Invalid OTP code", 400⟩ ∧
    getOTP (verifyAuthenticationOTP st otpId otp (some ident) now fe).2.otps otpId =
      some { t with attempts := t.attempts + 1 } := by
  have hid : t.id = otpId := getOTP_id hg
  simp only [verifyAuthenticationOTP, hg]
  rw [if_neg (by simp [optTruthy, h1, h2, h3]), if_neg hexp, if_neg (by omega),
    if_pos (by
      rcases hmis with hmis | hmis
      · exact Or.inl hmis
      · exact Or.inr (by simpa using hmis))]
  refine ⟨rfl, ?_⟩
  rw [← hid]
  exact getOTP_storeOTP _ { t with attempts := t.attempts + 1 }

/-- C8: OTP `verify` increments the attempt counter before the code
comparison is evaluated (a failed comparison still persists the
incremented counter); once `maxAttempts` failed calls have been recorded,
the next call is rejected with Maximum OTP attempts exceeded (429) and the
ticket destroyed; and every call on a missing (destroyed) ticket id fails
with the ticket-not-found semantics of "Invalid or expired OTP".  Both
`verifyRegistrationOTP` and `verifyAuthenticationOTP` satisfy all three. -/
theorem otpVerify_attempt_discipline :
    (∀ (st : OTPState) (otpId otp username : String) (now : Nat) (fu fe : String) (t : OTPData),
      otpId ≠ "" → otp ≠ "" → username ≠ "" →
      getOTP st.otps otpId = some t → ¬ t.expiresAt < now → t.attempts < t.maxAttempts →
      (t.otp ≠ otp ∨ t.username ≠ username) →
      (verifyRegistrationOTP st otpId otp username now fu fe).1 =
        .error ⟨"Invalid OTP code", 400⟩ ∧
      getOTP (verifyRegistrationOTP st otpId otp username now fu fe).2.otps otpId =
        some { t with attempts := t.attempts + 1 }) ∧
    (∀ (st : OTPState) (otpId otp username : String) (now : Nat) (fu fe : String) (t : OTPData),
      otpId ≠ "" → otp ≠ "" → username ≠ "" →
      getOTP st.otps otpId = some t → ¬ t.expiresAt < now → t.maxAttempts ≤ t.attempts →
      (verifyRegistrationOTP st otpId otp username now fu fe).1 =
        .error ⟨"Maximum OTP attempts exceeded", 429⟩ ∧
      getOTP (verifyRegistrationOTP st otpId otp username now fu fe).2.otps otpId = none) ∧
    (∀ (st : OTPState) (otpId otp username : String) (now : Nat) (fu fe : String),
      otpId ≠ "" → otp ≠ "" → username ≠ "" →
      getOTP st.otps otpId = none →
      verifyRegistrationOTP st otpId otp username now fu fe =
        (.error ⟨"Invalid or expired OTP", 400⟩, st)) ∧
    (∀ (st : OTPState) (otpId otp ident : String) (now : Nat) (fe : String) (t : OTPData),
      otpId ≠ "" → otp ≠ "" → ident ≠ "" →
      getOTP st.otps otpId = some t → ¬ t.expiresAt < now → t.attempts < t.maxAttempts →
      (t.otp ≠ otp ∨ t.identifier.getD t.username ≠ ident) →
      (verifyAuthenticationOTP st otpId otp (some ident) now fe).1 =
        .error ⟨"Invalid OTP code", 400⟩ ∧
      getOTP (verifyAuthenticationOTP st otpId otp (some ident) now fe).2.otps otpId =
        some { t with attempts := t.attempts + 1 }) ∧
    (∀ (st : OTPState) (otpId otp ident : String) (now : Nat) (fe : String) (t : OTPData),
      otpId ≠ "" → otp ≠ "" → ident ≠ "" →
      getOTP st.otps otpId = some t → ¬ t.expiresAt < now → t.maxAttempts ≤ t.attempts →
      (verifyAuthenticationOTP st otpId otp (some ident) now fe).1 =
        .error ⟨"Maximum OTP attempts exceeded", 429⟩ ∧
      getOTP (verifyAuthenticationOTP st otpId otp (some ident) now fe).2.otps otpId = none) ∧
    (∀ (st : OTPState) (otpId otp ident : String) (now : Nat) (fe : String),
      otpId ≠ "" → otp ≠ "" → ident ≠ "" →
      getOTP st.otps otpId = none →
      verifyAuthenticationOTP st otpId otp (some ident) now fe =
        (.error ⟨"Invalid or expired OTP", 400⟩, st)) := by
  refine ⟨?_, ?_, ?_, ?_, ?_, ?_⟩
  · intro st otpId otp username now fu fe t h1 h2 h3 hg hexp hatt hmis
    exact verifyRegistrationOTP_mismatch st otpId otp username now fu fe t h1 h2 h3 hg hexp
      hatt hmis
  · intro st otpId otp username now fu fe t h1 h2 h3 hg hexp hatt
    obtain ⟨a, b, _⟩ := verifyRegistrationOTP_exhausted st otpId otp username now fu fe t
      h1 h2 h3 hg hexp hatt
    exact ⟨a, b⟩
  · intro st otpId otp username now fu fe h1 h2 h3 hg
    exact verifyRegistrationOTP_missing st otpId otp username now fu fe h1 h2 h3 hg
  · intro st otpId otp ident now fe t h1 h2 h3 hg hexp hatt hmis
    exact verifyAuthenticationOTP_mismatch st otpId otp ident now fe t h1 h2 h3 hg hexp
      hatt hmis
  · intro st otpId otp ident now fe t h1 h2 h3 hg hexp hatt
    obtain ⟨a, b, _⟩ := verifyAuthenticationOTP_exhausted st otpId otp ident now fe t
      h1 h2 h3 hg hexp hatt
    exact ⟨a, b⟩
  · intro st otpId otp ident now fe h1 h2 h3 hg
    exact verifyAuthenticationOTP_missing st otpId otp ident now fe h1 h2 h3 hg

/-- A fresh registration OTP ticket, and the same ticket after three
failed attempts; likewise for the authentication ceremony. -/
def otpT : OTPData :=
  ⟨"t1", "dave", none, none, none, "123456", "email", "registration", 0, 3, 1000, false, 0⟩

def otpT3 : OTPData :=
  ⟨"t1", "dave", none, none, none, "123456", "email", "registration", 3, 3, 1000, false, 0⟩

def otpAuthT : OTPData :=
  ⟨"t2", "dave", none, some "u1", some "dave", "123456", "email", "authentication",
    0, 3, 1000, false, 0⟩

def otpAuthT3 : OTPData :=
  ⟨"t2", "dave", none, some "u1", some "dave", "123456", "email", "authentication",
    3, 3, 1000, false, 0⟩

/-- Witness for C8 at concrete tickets: a wrong code is counted and
persisted, an exhausted ticket is rejected with 429 and destroyed, and a
destroyed ticket id is not found — for both ceremonies. -/
theorem otpVerify_attempt_discipline_witness :
    ((verifyRegistrationOTP ⟨[otpT], [], []⟩ "t1" "999999" "dave" 10 "u" "e").1 =
        .error ⟨"Invalid OTP code", 400⟩ ∧
      getOTP (verifyRegistrationOTP ⟨[otpT], [], []⟩ "t1" "999999" "dave" 10 "u" "e").2.otps
        "t1" = some { otpT with attempts := otpT.attempts + 1 }) ∧
    ((verifyRegistrationOTP ⟨[otpT3], [], []⟩ "t1" "999999" "dave" 10 "u" "e").1 =
        .error ⟨"Maximum OTP attempts exceeded", 429⟩ ∧
      getOTP (verifyRegistrationOTP ⟨[otpT3], [], []⟩ "t1" "999999" "dave" 10 "u" "e").2.otps
        "t1" = none) ∧
    (verifyRegistrationOTP ⟨[], [], []⟩ "t1" "999999" "dave" 10 "u" "e" =
      (.error ⟨"Invalid or expired OTP", 400⟩, ⟨[], [], []⟩)) ∧
    ((verifyAuthenticationOTP ⟨[otpAuthT], [], []⟩ "t2" "999999" (some "dave") 10 "e").1 =
        .error ⟨"Invalid OTP code", 400⟩ ∧
      getOTP (verifyAuthenticationOTP ⟨[otpAuthT], [], []⟩ "t2" "999999" (some "dave")
        10 "e").2.otps "t2" = some { otpAuthT with attempts := otpAuthT.attempts + 1 }) ∧
    ((verifyAuthenticationOTP ⟨[otpAuthT3], [], []⟩ "t2" "999999" (some "dave") 10 "e").1 =
        .error ⟨"Maximum OTP attempts exceeded", 429⟩ ∧
      getOTP (verifyAuthenticationOTP ⟨[otpAuthT3], [], []⟩ "t2" "999999" (some "dave")
        10 "e").2.otps "t2" = none) ∧
    (verifyAuthenticationOTP ⟨[], [], []⟩ "t2" "999999" (some "dave") 10 "e" =
      (.error ⟨"Invalid or expired OTP", 400⟩, ⟨[], [], []⟩)) :=
  ⟨otpVerify_attempt_discipline.1 ⟨[otpT], [], []⟩ "t1" "999999" "dave" 10 "u" "e" otpT
      (by decide) (by decide) (by decide) (by decide) (by decide) (by decide)
      (Or.inl (by decide)),
    otpVerify_attempt_discipline.2.1 ⟨[otpT3], [], []⟩ "t1" "999999" "dave" 10 "u" "e" otpT3
      (by decide) (by decide) (by decide) (by decide) (by decide) (by decide),
    otpVerify_attempt_discipline.2.2.1 ⟨[], [], []⟩ "t1" "999999" "dave" 10 "u" "e"
      (by decide) (by decide) (by decide) (by decide),
    otpVerify_attempt_discipline.2.2.2.1 ⟨[otpAuthT], [], []⟩ "t2" "999999" "dave" 10 "e"
      otpAuthT (by decide) (by decide) (by decide) (by decide) (by decide) (by decide)
      (Or.inl (by decide)),
    otpVerify_attempt_discipline.2.2.2.2.1 ⟨[otpAuthT3], [], []⟩ "t2" "999999" "dave" 10 "e"
      otpAuthT3 (by decide) (by decide) (by decide) (by decide) (by decide) (by decide),
    otpVerify_attempt_discipline.2.2.2.2.2 ⟨[], [], []⟩ "t2" "999999" "dave" 10 "e"
      (by decide) (by decide) (by decide) (by decide)⟩

/-- An assertion response for a credential id that no store contains. -/
def respC9 : AuthnResponse := ⟨none, "QQ", true, 1⟩

/-- C9 (counterexample): a ceremony failure classified as CredentialNotFound
returns its error with the security-event store untouched — no
SecurityEvent is appended before the error is returned. -/
theorem finishAuthentication_credNotFound_no_event :
    (finishAuthentication ⟨[], [], [], []⟩ respC9 100 "e1").1 =
      .error ⟨"Credential not found", 404⟩ ∧
    (finishAuthentication ⟨[], [], [], []⟩ respC9 100 "e1").2.events = [] := by decide

/-- C9 (amended): among the state/protocol violations, only
MaxAttemptsExceeded logs a SecurityEvent (medium severity for the
registration ceremony, high for authentication) before its error is
returned; the ChallengeInvalid and CredentialNotFound failures of the
WebAuthn completion path return their errors without appending any
SecurityEvent. -/
theorem securityEvent_logging_by_category :
    (∀ (st : OTPState) (otpId otp username : String) (now : Nat) (fu fe : String) (t : OTPData),
      otpId ≠ "" → otp ≠ "" → username ≠ "" →
      getOTP st.otps otpId = some t → ¬ t.expiresAt < now → t.maxAttempts ≤ t.attempts →
      (verifyRegistrationOTP st otpId otp username now fu fe).1 =
        .error ⟨"Maximum OTP attempts exceeded", 429⟩ ∧
      (verifyRegistrationOTP st otpId otp username now fu fe).2.events =
        st.events ++ [⟨fe, "", "otp_max_attempts", username, now, "medium"⟩]) ∧
    (∀ (st : OTPState) (otpId otp ident : String) (now : Nat) (fe : String) (t : OTPData),
      otpId ≠ "" → otp ≠ "" → ident ≠ "" →
      getOTP st.otps otpId = some t → ¬ t.expiresAt < now → t.maxAttempts ≤ t.attempts →
      (verifyAuthenticationOTP st otpId otp (some ident) now fe).1 =
        .error ⟨"Maximum OTP attempts exceeded", 429⟩ ∧
      (verifyAuthenticationOTP st otpId otp (some ident) now fe).2.events =
        st.events ++ [⟨fe, t.userId.getD "", "auth_otp_max_attempts", ident, now, "high"⟩]) ∧
    (∀ (st : ServerState) (resp : AuthnResponse) (now : Nat) (fe : String),
      findCredentialRecord st.credentials (resolveAuthUser st.users resp.userHandle)
        resp.credId = none →
      (finishAuthentication st resp now fe).1 = .error ⟨"Credential not found", 404⟩ ∧
      (finishAuthentication st resp now fe).2.events = st.events) ∧
    (∀ (st : ServerState) (resp : AuthnResponse) (now : Nat) (fe : String)
        (credRec : Credential),
      findCredentialRecord st.credentials (resolveAuthUser st.users resp.userHandle)
        resp.credId = some credRec →
      findValidChallenge st.challenges now "authentication" none = none →
      (finishAuthentication st resp now fe).1 = .error ⟨"Invalid or expired challenge", 400⟩ ∧
      (finishAuthentication st resp now fe).2.events = st.events) := by
  refine ⟨?_, ?_, ?_, ?_⟩
  · intro st otpId otp username now fu fe t h1 h2 h3 hg hexp hatt
    obtain ⟨a, _, c⟩ := verifyRegistrationOTP_exhausted st otpId otp username now fu fe t
      h1 h2 h3 hg hexp hatt
    exact ⟨a, c⟩
  · intro st otpId otp ident now fe t h1 h2 h3 hg hexp hatt
    obtain ⟨a, _, c⟩ := verifyAuthenticationOTP_exhausted st otpId otp ident now fe t
      h1 h2 h3 hg hexp hatt
    exact ⟨a, c⟩
  · intro st resp now fe hc
    rw [finishAuthentication_credNotFound st resp now fe hc]
    exact ⟨rfl, rfl⟩
  · intro st resp now fe credRec hc hch
    rw [finishAuthentication_challengeInvalid st resp now fe credRec hc hch]
    exact ⟨rfl, rfl⟩

/-- Witness for the amended C9 theorem: an exhausted registration ticket
logs the medium max-attempts event; an exhausted authentication ticket
logs the high one; a missing credential and a missing challenge return
their errors with the event store untouched. -/
theorem securityEvent_logging_by_category_witness :
    ((verifyRegistrationOTP ⟨[otpT3], [], []⟩ "t1" "999999" "dave" 10 "u" "e").1 =
        .error ⟨"Maximum OTP attempts exceeded", 429⟩ ∧
      (verifyRegistrationOTP ⟨[otpT3], [], []⟩ "t1" "999999" "dave" 10 "u" "e").2.events =
        [] ++ [⟨"e", "", "otp_max_attempts", "dave", 10, "medium"⟩]) ∧
    ((verifyAuthenticationOTP ⟨[otpAuthT3], [], []⟩ "t2" "999999" (some "dave") 10 "e").1 =
        .error ⟨"Maximum OTP attempts exceeded", 429⟩ ∧
      (verifyAuthenticationOTP ⟨[otpAuthT3], [], []⟩ "t2" "999999" (some "dave")
        10 "e").2.events =
        [] ++ [⟨"e", otpAuthT3.userId.getD "", "auth_otp_max_attempts", "dave", 10, "high"⟩]) ∧
    ((finishAuthentication ⟨[], [], [], []⟩ ⟨none, "QR", true, 1⟩ 100 "e1").1 =
        .error ⟨"Credential not found", 404⟩ ∧
      (finishAuthentication ⟨[], [], [], []⟩ ⟨none, "QR", true, 1⟩ 100 "e1").2.events = []) ∧
    ((finishAuthentication ⟨[], [credC5], [], []⟩ ⟨none, "AAAA", true, 1⟩ 100 "e1").1 =
        .error ⟨"Invalid or expired challenge", 400⟩ ∧
      (finishAuthentication ⟨[], [credC5], [], []⟩
        ⟨none, "AAAA", true, 1⟩ 100 "e1").2.events = []) :=
  ⟨securityEvent_logging_by_category.1 ⟨[otpT3], [], []⟩ "t1" "999999" "dave" 10 "u" "e"
      otpT3 (by decide) (by decide) (by decide) (by decide) (by decide) (by decide),
    securityEvent_logging_by_category.2.1 ⟨[otpAuthT3], [], []⟩ "t2" "999999" "dave" 10 "e"
      otpAuthT3 (by decide) (by decide) (by decide) (by decide) (by decide) (by decide),
    securityEvent_logging_by_category.2.2.1 ⟨[], [], [], []⟩ ⟨none, "QR", true, 1⟩ 100 "e1"
      (by decide),
    securityEvent_logging_by_category.2.2.2 ⟨[], [credC5], [], []⟩ ⟨none, "AAAA", true, 1⟩
      100 "e1" credC5 (by decide) (by decide)⟩

/-- Witness for C10 at the already-canonical identifier "AA": the run
records no transformation and returns the input unchanged. -/
theorem canonicalizeCredentialId_total_witness :
    (canonicalizeCredentialId "AA").transformations ∈
      ([[], ["re-encode-raw"], ["unwrap-layer-1"], ["unwrap-layer-1", "re-encode-raw"],
        ["unwrap-layer-1", "unwrap-layer-2"]] : List (List String)) ∧
    (∀ step ∈ (canonicalizeCredentialId "AA").transformations,
      isCanonErrorStep step = false) ∧
    ((canonicalizeCredentialId "AA").transformations = [] →
      (canonicalizeCredentialId "AA").canonical = "AA") :=
  canonicalizeCredentialId_total "AA"
